import Mathlib

/-!
Verification of the yt_backend analysis service (src/backend/main.py).

Shallow embedding of the request-scoped pipeline of `src/backend/main.py`:
the URL id extraction (`extract_video_id`), the metadata mapping
(`get_video_details`), the transcript join (`get_youtube_transcript`), the
generative-service wrapper (`analyze_video_with_gemini`), the SEO scorer
(`calculate_seo_score`) and the `/api/analyze` handler (`analyze_video`).

Outbound network behaviour is modelled by passing each upstream service's
response (or error) explicitly as an `Except` value; the handler additionally
returns the list of outbound fetch attempts it performed, in order, so that
ordering/short-circuit properties can be stated.
-/

set_option maxRecDepth 4000

deriving instance DecidableEq for Except

/-- Model of `fastapi.HTTPException`: a status code and a detail string. -/
structure HTTPError where
  status_code : Nat
  detail : String
deriving DecidableEq

/-- Model of `str(...)` applied to a (starlette/fastapi) `HTTPException`,
whose `__str__` renders the status code, a colon and a space, then the
detail text. -/
def strOfHTTPError (e : HTTPError) : String :=
  toString e.status_code ++ ": " ++ e.detail

/-- The outbound network call attempts the handler can make, in order. -/
inductive FetchEvent where
  | metadataFetch
  | transcriptFetch
  | geminiCall
deriving DecidableEq

/-! ## URL id extraction (`extract_video_id`, main.py lines 59-70)

The source tries, in order, the three regular expressions

  (a)  (?:v=|\/)([0-9A-Za-z_-]{11}).*
  (b)  (?:embed\/)([0-9A-Za-z_-]{11})
  (c)  (?:watch\?v=)([0-9A-Za-z_-]{11})

with `re.search` (leftmost match) and returns the captured group of the
first pattern that matches; otherwise it raises `HTTPException(400,
"Invalid YouTube URL")`.  The trailing `.*` of pattern (a) always matches
(it may match the empty string) and binds no group, so it does not affect
success or the capture. -/

/-- The character class `[0-9A-Za-z_-]` of the id patterns. -/
def isIdChar (c : Char) : Bool :=
  (('0' ≤ c && c ≤ '9') || ('A' ≤ c && c ≤ 'Z') || ('a' ≤ c && c ≤ 'z')
    || c = '_' || c = '-')

/-- Match exactly `n` characters of the id class, returning the captured
characters and the remainder of the input. -/
def takeIdChars : Nat → List Char → Option (List Char × List Char)
  | 0, rest => some ([], rest)
  | _ + 1, [] => none
  | n + 1, c :: rest =>
    if isIdChar c then
      match takeIdChars n rest with
      | some (g, r) => some (c :: g, r)
      | none => none
    else none

/-- Match a literal character sequence at the front of the input, returning
the remainder. -/
def matchLit : List Char → List Char → Option (List Char)
  | [], s => some s
  | _ :: _, [] => none
  | l :: ls, c :: cs => if c = l then matchLit ls cs else none

/-- Attempt pattern (a), `(?:v=|\/)([0-9A-Za-z_-]{11}).*`, at the current
position: the alternation tries `v=` first, then `/`, each followed by
eleven id-class characters (the capture). -/
def matchP1At : List Char → Option (List Char)
  | c1 :: c2 :: rest =>
    if c1 = 'v' then
      if c2 = '=' then (takeIdChars 11 rest).map (fun p => p.1) else none
    else if c1 = '/' then (takeIdChars 11 (c2 :: rest)).map (fun p => p.1)
    else none
  | [c1] =>
    if c1 = '/' then (takeIdChars 11 []).map (fun p => p.1) else none
  | [] => none

/-- Attempt pattern (b), `(?:embed\/)([0-9A-Za-z_-]{11})`, at the current
position. -/
def matchP2At (s : List Char) : Option (List Char) :=
  match matchLit ['e', 'm', 'b', 'e', 'd', '/'] s with
  | some rest => (takeIdChars 11 rest).map (fun p => p.1)
  | none => none

/-- Attempt pattern (c), `(?:watch\?v=)([0-9A-Za-z_-]{11})`, at the current
position. -/
def matchP3At (s : List Char) : Option (List Char) :=
  match matchLit ['w', 'a', 't', 'c', 'h', '?', 'v', '='] s with
  | some rest => (takeIdChars 11 rest).map (fun p => p.1)
  | none => none

/-- Implements `re.search` semantics: try the pattern at every position, leftmost
match wins (including the position at the end of the string). -/
def searchAux (f : List Char → Option (List Char)) : List Char → Option (List Char)
  | [] => f []
  | c :: rest =>
    match f (c :: rest) with
    | some g => some g
    | none => searchAux f rest

def searchP1 (s : List Char) : Option (List Char) := searchAux matchP1At s

def searchP2 (s : List Char) : Option (List Char) := searchAux matchP2At s

def searchP3 (s : List Char) : Option (List Char) := searchAux matchP3At s

/-- Model of `extract_video_id` (main.py lines 59-70): first pattern in the fixed
list that matches wins; no match raises `HTTPException(400, "Invalid
YouTube URL")`. -/
def extract_video_id (url : String) : Except HTTPError String :=
  match searchP1 url.data with
  | some g => Except.ok (String.mk g)
  | none =>
    match searchP2 url.data with
    | some g => Except.ok (String.mk g)
    | none =>
      match searchP3 url.data with
      | some g => Except.ok (String.mk g)
      | none => Except.error ⟨400, "Invalid YouTube URL"⟩

/-! ## SEO scorer (`calculate_seo_score`, main.py lines 192-223)

Python truthiness on the guards: `if title:` holds iff the string is
non-empty, `if tags:` iff the list is non-empty. -/

def calculate_seo_score (title : String) (description : String)
    (tags : List String) (transcript_available : Bool) : Nat :=
  let score := 0
  let _max_score := 100
  -- Title analysis (20 points)
  let score :=
    if title ≠ "" then
      let title_length := title.length
      if 20 ≤ title_length ∧ title_length ≤ 70 then score + 20
      else if title_length < 20 then score + 10
      else score
    else score
  -- Description analysis (30 points)
  let score :=
    if description ≠ "" then
      let desc_length := description.length
      if 250 ≤ desc_length then score + 30
      else if 100 ≤ desc_length then score + 15
      else score
    else score
  -- Tags analysis (30 points)
  let score :=
    if tags ≠ [] then
      if 15 ≤ tags.length then score + 30
      else if 8 ≤ tags.length then score + 15
      else score
    else score
  -- Transcript availability (20 points)
  let score := if transcript_available then score + 20 else score
  score

/-- The title band of `calculate_seo_score` as a score transformer
(the `if title: ... score += _` statement). -/
def title_step (title : String) (score : Nat) : Nat :=
  if title ≠ "" then
    if 20 ≤ title.length ∧ title.length ≤ 70 then score + 20
    else if title.length < 20 then score + 10
    else score
  else score

/-- The description band of `calculate_seo_score` as a score transformer. -/
def desc_step (description : String) (score : Nat) : Nat :=
  if description ≠ "" then
    if 250 ≤ description.length then score + 30
    else if 100 ≤ description.length then score + 15
    else score
  else score

/-- The tags band of `calculate_seo_score` as a score transformer. -/
def tags_step (tags : List String) (score : Nat) : Nat :=
  if tags ≠ [] then
    if 15 ≤ tags.length then score + 30
    else if 8 ≤ tags.length then score + 15
    else score
  else score

/-- The transcript band of `calculate_seo_score` as a score transformer. -/
def transcript_step (transcript_available : Bool) (score : Nat) : Nat :=
  if transcript_available then score + 20 else score

/-- The title band of `calculate_seo_score`, isolated. -/
def title_component (title : String) : Nat :=
  if title ≠ "" then
    if 20 ≤ title.length ∧ title.length ≤ 70 then 20
    else if title.length < 20 then 10
    else 0
  else 0

/-- The description band of `calculate_seo_score`, isolated. -/
def desc_component (description : String) : Nat :=
  if description ≠ "" then
    if 250 ≤ description.length then 30
    else if 100 ≤ description.length then 15
    else 0
  else 0

/-- The tags band of `calculate_seo_score`, isolated. -/
def tags_component (tags : List String) : Nat :=
  if tags ≠ [] then
    if 15 ≤ tags.length then 30
    else if 8 ≤ tags.length then 15
    else 0
  else 0

/-- The transcript band of `calculate_seo_score`, isolated. -/
def transcript_component (transcript_available : Bool) : Nat :=
  if transcript_available then 20 else 0

/-! ## Metadata fetch (`get_video_details`, main.py lines 72-101)

The upstream metadata service returns a JSON document whose `items` entries
have optional `snippet`, `statistics` and `contentDetails` objects, each
with optional inner fields; every field access in the source goes through
`.get` with a default.  The outbound `requests.get` (its network error or
non-2xx `raise_for_status`, collapsed into one upstream error string) is
modelled by the `Except` argument.  Note that the `HTTPException(404,
"Video not found")` raised for an empty `items` list is itself caught by
the function's own `except Exception` clause and re-wrapped as a 500. -/

structure YTThumb where
  url : Option String
deriving DecidableEq

structure YTThumbs where
  high : Option YTThumb
deriving DecidableEq

structure YTSnippet where
  title : Option String
  description : Option String
  tags : Option (List String)
  thumbnails : Option YTThumbs
deriving DecidableEq

structure YTStatistics where
  viewCount : Option Nat
deriving DecidableEq

structure YTContentDetails where
  duration : Option String
deriving DecidableEq

structure YTItem where
  snippet : Option YTSnippet
  statistics : Option YTStatistics
  contentDetails : Option YTContentDetails
deriving DecidableEq

/-- The dictionary returned by `get_video_details`. -/
structure VideoDetails where
  title : String
  description : String
  tags : List String
  thumbnail : String
  view_count : Nat
  duration : String
deriving DecidableEq

/-- Model of `get_video_details` (main.py lines 72-101).  The second component of the
result records whether the outbound metadata request was attempted (it is
attempted exactly when the YouTube API key is configured). -/
def get_video_details (api_key : Option String)
    (upstream : Except String (List YTItem)) :
    Except HTTPError VideoDetails × List FetchEvent :=
  match api_key with
  | none => (Except.error ⟨500, "YouTube API key not configured"⟩, [])
  | some _ =>
    match upstream with
    | Except.error e =>
      (Except.error ⟨500, "Failed to fetch video details: " ++ e⟩,
        [FetchEvent.metadataFetch])
    | Except.ok items =>
      match items with
      | [] =>
        (Except.error ⟨500, "Failed to fetch video details: "
            ++ strOfHTTPError ⟨404, "Video not found"⟩⟩,
          [FetchEvent.metadataFetch])
      | video_info :: _ =>
        let snippet := video_info.snippet
        let statistics := video_info.statistics
        let content_details := video_info.contentDetails
        (Except.ok
          ⟨(snippet.bind (fun s => s.title)).getD "",
           (snippet.bind (fun s => s.description)).getD "",
           (snippet.bind (fun s => s.tags)).getD [],
           (((snippet.bind (fun s => s.thumbnails)).bind (fun t => t.high)).bind
             (fun u => u.url)).getD "",
           (statistics.bind (fun s => s.viewCount)).getD 0,
           (content_details.bind (fun c => c.duration)).getD ""⟩,
          [FetchEvent.metadataFetch])

/-! ## Transcript fetch (`get_youtube_transcript`, main.py lines 103-111)

Upstream segments carry `text`, `start` and `duration` keys; the source
reads only `entry['text']`, so the timing fields (floats) are omitted from
the embedding. -/

structure TranscriptEntry where
  text : String
deriving DecidableEq

/-- Model of `get_youtube_transcript`: the `" ".join` of the segment texts in upstream
order; any upstream exception (including "no transcript exists") is caught
and the empty string is returned. -/
def get_youtube_transcript (upstream : Except String (List TranscriptEntry)) : String :=
  match upstream with
  | Except.ok transcript => String.intercalate " " (transcript.map (fun e => e.text))
  | Except.error _ => ""

/-! ## Generative-service call (`analyze_video_with_gemini`, main.py 113-190)

The function builds a fixed prompt template from the gathered fields and
forwards it; the response text is returned unmodified.  No claim concerns
the prompt contents, so the embedding keeps the inputs and models only the
upstream call outcome: any exception from the call is re-raised as
`HTTPException(500, "Gemini API error: ...")`. -/
def analyze_video_with_gemini (_transcript_text _thumbnail_url _title _description : String)
    (_tags : List String) (_api_key : String)
    (upstream : Except String String) : Except HTTPError String :=
  match upstream with
  | Except.ok text => Except.ok text
  | Except.error e => Except.error ⟨500, "Gemini API error: " ++ e⟩

/-! ## The `/api/analyze` handler (`analyze_video`, main.py lines 225-276) -/

/-- The response object assembled by `analyze_video`. -/
structure Analysis where
  title : String
  views : Nat
  length : String
  description : String
  keywords : List String
  thumbnail_url : String
  seo_score : Nat
  gemini_analysis : String
  has_transcript : Bool
deriving DecidableEq

/-- One request's whole environment: the two process-wide credentials and
each upstream service's behaviour for this request. -/
structure Env where
  gemini_api_key : Option String
  youtube_api_key : Option String
  url : String
  metadata_upstream : Except String (List YTItem)
  transcript_upstream : Except String (List TranscriptEntry)
  gemini_upstream : Except String String
deriving DecidableEq

/-- The body of the `try:` block of `analyze_video` (main.py lines 227-274),
together with the ordered list of outbound fetch attempts performed. -/
def analyze_video_inner (env : Env) : Except HTTPError Analysis × List FetchEvent :=
  match env.gemini_api_key with
  | none => (Except.error ⟨500, "Gemini API key not configured"⟩, [])
  | some gemini_api_key =>
    match extract_video_id env.url with
    | Except.error e => (Except.error e, [])
    | Except.ok _video_id =>
      match get_video_details env.youtube_api_key env.metadata_upstream with
      | (Except.error e, tr) => (Except.error e, tr)
      | (Except.ok video_info, tr) =>
        let transcript_text := get_youtube_transcript env.transcript_upstream
        let tr := tr ++ [FetchEvent.transcriptFetch]
        let title := video_info.title
        let description := video_info.description
        let tags := video_info.tags
        let thumbnail_url := video_info.thumbnail
        let views := video_info.view_count
        let length := video_info.duration
        match analyze_video_with_gemini transcript_text thumbnail_url title
            description tags gemini_api_key env.gemini_upstream with
        | Except.error e => (Except.error e, tr ++ [FetchEvent.geminiCall])
        | Except.ok gemini_analysis =>
          let seo_score := calculate_seo_score title description tags (transcript_text != "")
          (Except.ok
            ⟨title, views, length, description, tags, thumbnail_url,
             seo_score, gemini_analysis, transcript_text != ""⟩,
            tr ++ [FetchEvent.geminiCall])

/-- Model of `analyze_video` (main.py lines 225-276): the `try:` body wrapped by
`except Exception as e: raise HTTPException(status_code=400, detail=str(e))`.
`HTTPException` subclasses `Exception`, so every inner raise — including the
`HTTPException(500, ...)` ones — is caught here and re-raised with status
400 and `str(e)` as detail. -/
def analyze_video (env : Env) : Except HTTPError Analysis × List FetchEvent :=
  match analyze_video_inner env with
  | (Except.ok a, tr) => (Except.ok a, tr)
  | (Except.error e, tr) => (Except.error ⟨400, strOfHTTPError e⟩, tr)

/-! ## Concrete sample environments used in witnesses -/

/-- An upstream metadata item with every optional field absent. -/
def sampleItem : YTItem := ⟨none, none, none⟩

/-- A request environment whose only defect is the missing Gemini key:
valid URL, configured YouTube key, healthy upstream services. -/
def envMissingKey : Env :=
  ⟨none, some "yt-key", "https://www.youtube.com/watch?v=dQw4w9WgXcQ",
    Except.ok [sampleItem], Except.ok [⟨"hello"⟩], Except.ok "analysis"⟩

/-- A request environment whose only defect is a failing transcript
service. -/
def envTranscriptErr : Env :=
  ⟨some "gemini-key", some "yt-key", "https://www.youtube.com/watch?v=dQw4w9WgXcQ",
    Except.ok [sampleItem], Except.error "boom", Except.ok "analysis"⟩

/-- The response `analyze_video` assembles for `envTranscriptErr`. -/
def resTranscriptErr : Analysis :=
  ⟨"", 0, "", "", [], "", 0, "analysis", false⟩

/-! ## Helper lemmas about the searcher -/

theorem searchAux_cons (f : List Char → Option (List Char)) (c : Char) (s : List Char) :
    searchAux f (c :: s) =
      match f (c :: s) with
      | some g => some g
      | none => searchAux f s := rfl

/-- If the pattern fails at every position inside the prefix `p`, the scan
over `p ++ s` is the scan over `s`. -/
theorem searchAux_skip (f : List Char → Option (List Char)) :
    ∀ (p s : List Char), (∀ i, i < p.length → f (p.drop i ++ s) = none) →
      searchAux f (p ++ s) = searchAux f s := by
  intro p
  induction p with
  | nil => intro s _; rfl
  | cons c p ih =>
    intro s hp
    have h0 : f (c :: (p ++ s)) = none := by
      have h := hp 0 (by simp)
      simpa using h
    rw [List.cons_append, searchAux_cons, h0]
    exact ih s (fun i hi => by
      have h := hp (i + 1) (by simpa using Nat.succ_lt_succ hi)
      simpa using h)

/-- An all-id-class list of the right length is consumed whole by
`takeIdChars`, leaving the rest. -/
theorem takeIdChars_all : ∀ (cs rest : List Char), (∀ c ∈ cs, isIdChar c = true) →
    takeIdChars cs.length (cs ++ rest) = some (cs, rest) := by
  intro cs
  induction cs with
  | nil => intro rest _; rfl
  | cons c cs ih =>
    intro rest hid
    have hc : isIdChar c = true := hid c (List.mem_cons_self c cs)
    have hr := ih rest (fun x hx => hid x (List.mem_cons_of_mem c hx))
    simp [takeIdChars, hc, hr]

/-- Pattern (a) finds the id of a `watch?v=` URL at the `v=` position;
every earlier position of the URL head fails. -/
theorem searchP1_watch (l m : List Char) (h : l.length = 11)
    (hid : ∀ c ∈ l, isIdChar c = true) :
    searchP1 (['h', 't', 't', 'p', 's', ':', '/', '/', 'w', 'w', 'w', '.', 'y', 'o',
        'u', 't', 'u', 'b', 'e', '.', 'c', 'o', 'm', '/', 'w', 'a', 't', 'c', 'h', '?']
      ++ ('v' :: '=' :: (l ++ m))) = some l := by
  have htake : takeIdChars 11 (l ++ m) = some (l, m) := by
    rw [← h]; exact takeIdChars_all l m hid
  unfold searchP1
  rw [searchAux_skip matchP1At
    ['h', 't', 't', 'p', 's', ':', '/', '/', 'w', 'w', 'w', '.', 'y', 'o',
      'u', 't', 'u', 'b', 'e', '.', 'c', 'o', 'm', '/', 'w', 'a', 't', 'c', 'h', '?']
    ('v' :: '=' :: (l ++ m))
    (by
      intro i hi
      have hi30 : i < 30 := by simpa using hi
      interval_cases i <;> rfl)]
  rw [searchAux_cons]
  simp [matchP1At, htake]

/-- Pattern (a) finds the id of an `embed/` URL at the final slash;
every earlier position of the URL head fails. -/
theorem searchP1_embed (l m : List Char) (h : l.length = 11)
    (hid : ∀ c ∈ l, isIdChar c = true) :
    searchP1 (['h', 't', 't', 'p', 's', ':', '/', '/', 'w', 'w', 'w', '.', 'y', 'o',
        'u', 't', 'u', 'b', 'e', '.', 'c', 'o', 'm', '/', 'e', 'm', 'b', 'e', 'd']
      ++ ('/' :: (l ++ m))) = some l := by
  obtain ⟨c, l', rfl⟩ : ∃ c l', l = c :: l' := by
    cases l with
    | nil => simp at h
    | cons c l' => exact ⟨c, l', rfl⟩
  have htake : takeIdChars 11 (c :: (l' ++ m)) = some (c :: l', m) := by
    have ht := takeIdChars_all (c :: l') m hid
    rw [h] at ht
    simpa using ht
  unfold searchP1
  rw [searchAux_skip matchP1At
    ['h', 't', 't', 'p', 's', ':', '/', '/', 'w', 'w', 'w', '.', 'y', 'o',
      'u', 't', 'u', 'b', 'e', '.', 'c', 'o', 'm', '/', 'e', 'm', 'b', 'e', 'd']
    ('/' :: ((c :: l') ++ m))
    (by
      intro i hi
      have hi29 : i < 29 := by simpa using hi
      interval_cases i <;> rfl)]
  rw [searchAux_cons]
  simp [matchP1At, htake]

/-- Pattern (a) finds the id of a `youtu.be/` URL at the final slash;
every earlier position of the URL head fails. -/
theorem searchP1_short (l m : List Char) (h : l.length = 11)
    (hid : ∀ c ∈ l, isIdChar c = true) :
    searchP1 (['h', 't', 't', 'p', 's', ':', '/', '/', 'y', 'o', 'u', 't', 'u', '.',
        'b', 'e'] ++ ('/' :: (l ++ m))) = some l := by
  obtain ⟨c, l', rfl⟩ : ∃ c l', l = c :: l' := by
    cases l with
    | nil => simp at h
    | cons c l' => exact ⟨c, l', rfl⟩
  have htake : takeIdChars 11 (c :: (l' ++ m)) = some (c :: l', m) := by
    have ht := takeIdChars_all (c :: l') m hid
    rw [h] at ht
    simpa using ht
  unfold searchP1
  rw [searchAux_skip matchP1At
    ['h', 't', 't', 'p', 's', ':', '/', '/', 'y', 'o', 'u', 't', 'u', '.', 'b', 'e']
    ('/' :: ((c :: l') ++ m))
    (by
      intro i hi
      have hi16 : i < 16 := by simpa using hi
      interval_cases i <;> rfl)]
  rw [searchAux_cons]
  simp [matchP1At, htake]

/-! ## Claims about the URL id extraction -/

/-- Claim C4: for each of the three supported URL shapes carrying a
well-formed 11-character id (with an arbitrary trailing suffix, e.g. query
parameters), `extract_video_id` returns exactly that id; and for every
input string in which none of the three patterns matches anywhere, it
fails with the `InvalidURL` client error (HTTP 400).  The function is pure,
so the failure has no side effects. -/
theorem url_id_extraction :
    (∀ id suffix : String, id.length = 11 → (∀ c ∈ id.data, isIdChar c = true) →
        extract_video_id ("https://www.youtube.com/watch?v=" ++ id ++ suffix) = Except.ok id
      ∧ extract_video_id ("https://www.youtube.com/embed/" ++ id ++ suffix) = Except.ok id
      ∧ extract_video_id ("https://youtu.be/" ++ id ++ suffix) = Except.ok id)
  ∧ (∀ url : String, searchP1 url.data = none → searchP2 url.data = none →
      searchP3 url.data = none →
      extract_video_id url = Except.error ⟨400, "Invalid YouTube URL"⟩) := by
  constructor
  · intro id suffix hlen hid
    obtain ⟨l⟩ := id
    obtain ⟨m⟩ := suffix
    have hlen' : l.length = 11 := hlen
    have hid' : ∀ c ∈ l, isIdChar c = true := hid
    refine ⟨?_, ?_, ?_⟩
    · have hdata : ("https://www.youtube.com/watch?v=" ++ String.mk l ++ String.mk m).data
          = ['h', 't', 't', 'p', 's', ':', '/', '/', 'w', 'w', 'w', '.', 'y', 'o',
              'u', 't', 'u', 'b', 'e', '.', 'c', 'o', 'm', '/', 'w', 'a', 't', 'c', 'h', '?']
            ++ ('v' :: '=' :: (l ++ m)) := rfl
      unfold extract_video_id
      rw [hdata, searchP1_watch l m hlen' hid']
    · have hdata : ("https://www.youtube.com/embed/" ++ String.mk l ++ String.mk m).data
          = ['h', 't', 't', 'p', 's', ':', '/', '/', 'w', 'w', 'w', '.', 'y', 'o',
              'u', 't', 'u', 'b', 'e', '.', 'c', 'o', 'm', '/', 'e', 'm', 'b', 'e', 'd']
            ++ ('/' :: (l ++ m)) := rfl
      unfold extract_video_id
      rw [hdata, searchP1_embed l m hlen' hid']
    · have hdata : ("https://youtu.be/" ++ String.mk l ++ String.mk m).data
          = ['h', 't', 't', 'p', 's', ':', '/', '/', 'y', 'o', 'u', 't', 'u', '.', 'b', 'e']
            ++ ('/' :: (l ++ m)) := rfl
      unfold extract_video_id
      rw [hdata, searchP1_short l m hlen' hid']
  · intro url h1 h2 h3
    unfold extract_video_id
    rw [h1, h2, h3]

/-- Witness for C4: the canonical watch URL yields its id, and a string
with no pattern occurrence yields the 400 error. -/
theorem url_id_extraction_witness :
    extract_video_id "https://www.youtube.com/watch?v=dQw4w9WgXcQ" = Except.ok "dQw4w9WgXcQ"
  ∧ extract_video_id "notavideo" = Except.error ⟨400, "Invalid YouTube URL"⟩ := by
  constructor
  · have h := (url_id_extraction.1 "dQw4w9WgXcQ" "" (by decide) (by decide)).1
    have heq : ("https://www.youtube.com/watch?v=" ++ ("dQw4w9WgXcQ" : String) ++ "")
        = "https://www.youtube.com/watch?v=dQw4w9WgXcQ" := by decide
    rw [heq] at h
    exact h
  · exact url_id_extraction.2 "notavideo" (by decide) (by decide) (by decide)

/-- Claim C8: the three patterns are tried in a fixed order and the first
match wins: whenever pattern (a) matches, its captured group is returned,
even when pattern (c) (`watch?v=`) would also match — pattern (a)
pre-empts pattern (c). -/
theorem extract_first_pattern_wins :
    (∀ (url : String) (g : List Char), searchP1 url.data = some g →
        extract_video_id url = Except.ok (String.mk g))
  ∧ (∀ (url : String) (g g' : List Char), searchP1 url.data = some g →
        searchP3 url.data = some g' →
        extract_video_id url = Except.ok (String.mk g)) := by
  have h1 : ∀ (url : String) (g : List Char), searchP1 url.data = some g →
      extract_video_id url = Except.ok (String.mk g) := by
    intro url g hg
    unfold extract_video_id
    rw [hg]
  exact ⟨h1, fun url g g' hg _ => h1 url g hg⟩

/-- Witness for C8: on `/abcdefghijk-watch?v=ABCDEFGHIJK`, pattern (a)
captures `abcdefghijk`, pattern (c) would capture `ABCDEFGHIJK`, and the
extractor returns pattern (a)'s capture. -/
theorem extract_first_pattern_wins_witness :
    searchP1 ("/abcdefghijk-watch?v=ABCDEFGHIJK" : String).data = some ("abcdefghijk" : String).data
  ∧ searchP3 ("/abcdefghijk-watch?v=ABCDEFGHIJK" : String).data = some ("ABCDEFGHIJK" : String).data
  ∧ extract_video_id "/abcdefghijk-watch?v=ABCDEFGHIJK" = Except.ok "abcdefghijk" :=
  ⟨by decide, by decide,
    extract_first_pattern_wins.2 "/abcdefghijk-watch?v=ABCDEFGHIJK"
      ("abcdefghijk" : String).data ("ABCDEFGHIJK" : String).data (by decide) (by decide)⟩

/-! ## Helper lemmas about the scorer -/

/-- The sequential `score` accumulation of `calculate_seo_score` is
definitionally the composition of the four band steps applied to 0. -/
theorem calculate_eq_steps (title description : String) (tags : List String) (f : Bool) :
    calculate_seo_score title description tags f =
      transcript_step f (tags_step tags (desc_step description (title_step title 0))) := rfl

theorem title_step_eq (title : String) (s : Nat) :
    title_step title s = s + title_component title := by
  unfold title_step title_component; split_ifs <;> omega

theorem desc_step_eq (description : String) (s : Nat) :
    desc_step description s = s + desc_component description := by
  unfold desc_step desc_component; split_ifs <;> omega

theorem tags_step_eq (tags : List String) (s : Nat) :
    tags_step tags s = s + tags_component tags := by
  unfold tags_step tags_component; split_ifs <;> omega

theorem transcript_step_eq (f : Bool) (s : Nat) :
    transcript_step f s = s + transcript_component f := by
  unfold transcript_step transcript_component; split_ifs <;> omega

theorem seo_decompose (title description : String) (tags : List String) (f : Bool) :
    calculate_seo_score title description tags f =
      title_component title + desc_component description
        + tags_component tags + transcript_component f := by
  rw [calculate_eq_steps, transcript_step_eq, tags_step_eq, desc_step_eq, title_step_eq]
  omega

theorem title_component_le (title : String) : title_component title ≤ 20 := by
  unfold title_component; split_ifs <;> omega

theorem desc_component_le (description : String) : desc_component description ≤ 30 := by
  unfold desc_component; split_ifs <;> omega

theorem tags_component_le (tags : List String) : tags_component tags ≤ 30 := by
  unfold tags_component; split_ifs <;> omega

theorem transcript_component_le (f : Bool) : transcript_component f ≤ 20 := by
  unfold transcript_component; split_ifs <;> omega

/-- A string is non-empty iff its length is non-zero (`if title:` in Python). -/
theorem str_ne_empty_iff (s : String) : (s ≠ "") ↔ s.length ≠ 0 := by
  obtain ⟨l⟩ := s
  cases l <;> simp [String.length, String.ext_iff]

/-- A list is non-empty iff its length is non-zero (`if tags:` in Python). -/
theorem list_ne_nil_iff {α : Type} (l : List α) : (l ≠ []) ↔ l.length ≠ 0 := by
  cases l <;> simp

theorem desc_component_mono (d1 d2 : String) (h : d1.length ≤ d2.length) :
    desc_component d1 ≤ desc_component d2 := by
  unfold desc_component
  simp only [str_ne_empty_iff]
  split_ifs <;> omega

theorem title_component_congr (t1 t2 : String) (h : t1.length = t2.length) :
    title_component t1 = title_component t2 := by
  unfold title_component
  simp only [str_ne_empty_iff, h]

theorem desc_component_congr (d1 d2 : String) (h : d1.length = d2.length) :
    desc_component d1 = desc_component d2 := by
  unfold desc_component
  simp only [str_ne_empty_iff, h]

theorem tags_component_congr (g1 g2 : List String) (h : g1.length = g2.length) :
    tags_component g1 = tags_component g2 := by
  unfold tags_component
  simp only [list_ne_nil_iff, h]

/-! ## Claims about the scorer -/

/-- Claim C2: `calculate_seo_score` is a total deterministic function of
its four arguments (it is a Lean function, hence total and deterministic by
construction) and its value lies in the closed interval [0, 100] for every
combination of title, description, tag list and transcript flag. -/
theorem seo_score_total_bounded (title description : String) (tags : List String)
    (transcript_available : Bool) :
    0 ≤ calculate_seo_score title description tags transcript_available
      ∧ calculate_seo_score title description tags transcript_available ≤ 100 := by
  refine ⟨Nat.zero_le _, ?_⟩
  rw [seo_decompose]
  have h1 := title_component_le title
  have h2 := desc_component_le description
  have h3 := tags_component_le tags
  have h4 := transcript_component_le transcript_available
  omega

/-- Claim C3: the scorer awards exactly the banded component values at the
stated inclusive boundaries (each band evaluated with every other component
zeroed; the transcript flag models `bool(transcript_text)` for a non-empty
transcript). -/
theorem seo_score_boundaries :
    calculate_seo_score (String.mk (List.replicate 20 'a')) "" [] false = 20
  ∧ calculate_seo_score (String.mk (List.replicate 70 'a')) "" [] false = 20
  ∧ calculate_seo_score (String.mk (List.replicate 19 'a')) "" [] false = 10
  ∧ calculate_seo_score "" "" [] false = 0
  ∧ calculate_seo_score "" (String.mk (List.replicate 250 'a')) [] false = 30
  ∧ calculate_seo_score "" (String.mk (List.replicate 100 'a')) [] false = 15
  ∧ calculate_seo_score "" (String.mk (List.replicate 99 'a')) [] false = 0
  ∧ calculate_seo_score "" "" (List.replicate 15 "tag") false = 30
  ∧ calculate_seo_score "" "" (List.replicate 8 "tag") false = 15
  ∧ calculate_seo_score "" "" (List.replicate 7 "tag") false = 0
  ∧ calculate_seo_score "" "" [] true = 20 := by decide

/-- Claim C9: holding title, tags and transcript flag fixed, the score is
monotonically non-decreasing in the length of the description. -/
theorem seo_score_mono_desc (title : String) (tags : List String) (f : Bool)
    (d1 d2 : String) (h : d1.length ≤ d2.length) :
    calculate_seo_score title d1 tags f ≤ calculate_seo_score title d2 tags f := by
  rw [seo_decompose, seo_decompose]
  have := desc_component_mono d1 d2 h
  omega

/-- Witness for C9 at a concrete pair of descriptions of lengths 0 and 300. -/
theorem seo_score_mono_desc_witness :
    ("" : String).length ≤ (String.mk (List.replicate 300 'b')).length
  ∧ calculate_seo_score "a title" "" ["t"] true
      ≤ calculate_seo_score "a title" (String.mk (List.replicate 300 'b')) ["t"] true :=
  ⟨by decide, seo_score_mono_desc "a title" ["t"] true "" (String.mk (List.replicate 300 'b'))
    (by decide)⟩

/-- Claim C10: the score depends only on the title length, description
length, tag count and transcript flag — any two argument tuples agreeing on
those four quantities give equal scores, regardless of the characters or
tag contents. -/
theorem seo_score_depends_only_on_counts (t1 t2 d1 d2 : String)
    (g1 g2 : List String) (f : Bool) (ht : t1.length = t2.length)
    (hd : d1.length = d2.length) (hg : g1.length = g2.length) :
    calculate_seo_score t1 d1 g1 f = calculate_seo_score t2 d2 g2 f := by
  rw [seo_decompose, seo_decompose, title_component_congr t1 t2 ht,
    desc_component_congr d1 d2 hd, tags_component_congr g1 g2 hg]

/-- Witness for C10: same lengths, entirely different contents. -/
theorem seo_score_depends_only_on_counts_witness :
    ("aaaaaaaaaaaaaaaaaaaaaaaaa" : String).length = ("bcdefbcdefbcdefbcdefbcdef" : String).length
  ∧ calculate_seo_score "aaaaaaaaaaaaaaaaaaaaaaaaa" "short" ["x"] true
      = calculate_seo_score "bcdefbcdefbcdefbcdefbcdef" "other" ["completely different"] true :=
  ⟨by decide, seo_score_depends_only_on_counts "aaaaaaaaaaaaaaaaaaaaaaaaa"
    "bcdefbcdefbcdefbcdefbcdef" "short" "other" ["x"] ["completely different"] true
    (by decide) (by decide) (by decide)⟩

/-! ## Claims about the metadata fetcher -/

/-- Claim C6: whenever the upstream metadata response has a non-empty
`items` list, `get_video_details` succeeds (rather than failing), and
absent optional fields map to defaults: missing tags give the empty list,
a missing thumbnail URL gives the empty string, missing statistics give a
view count of zero. -/
theorem metadata_defaults (yk : String) (item : YTItem) (rest : List YTItem) :
    ∃ d, get_video_details (some yk) (Except.ok (item :: rest))
        = (Except.ok d, [FetchEvent.metadataFetch])
      ∧ (item.snippet.bind (fun s => s.tags) = none → d.tags = [])
      ∧ (((item.snippet.bind (fun s => s.thumbnails)).bind (fun t => t.high)).bind
          (fun u => u.url) = none → d.thumbnail = "")
      ∧ (item.statistics.bind (fun s => s.viewCount) = none → d.view_count = 0) := by
  refine ⟨_, rfl, ?_, ?_, ?_⟩ <;> intro h <;> simp [h]

/-- Witness for C6 at an item with every optional field absent. -/
theorem metadata_defaults_witness :
    ∃ d, get_video_details (some "k") (Except.ok [sampleItem])
        = (Except.ok d, [FetchEvent.metadataFetch])
      ∧ d.tags = [] ∧ d.thumbnail = "" ∧ d.view_count = 0 := by
  obtain ⟨d, hd, h1, h2, h3⟩ := metadata_defaults "k" sampleItem []
  exact ⟨d, hd, h1 rfl, h2 rfl, h3 rfl⟩

/-! ## Claims about the transcript fetcher -/

/-- Claim C5: `get_youtube_transcript` returns the space-joined
concatenation of the segment texts in upstream order when the upstream
call succeeds, returns the empty string (never a propagated error) when
the upstream call raises, and in the latter case the assembled response
has `has_transcript = false`. -/
theorem transcript_contract :
    (∀ entries : List TranscriptEntry,
        get_youtube_transcript (Except.ok entries)
          = String.intercalate " " (entries.map (fun e => e.text)))
  ∧ (∀ err : String, get_youtube_transcript (Except.error err) = "")
  ∧ (∀ (env : Env) (err : String) (a : Analysis),
        env.transcript_upstream = Except.error err →
        (analyze_video env).1 = Except.ok a → a.has_transcript = false) := by
  refine ⟨fun entries => rfl, fun err => rfl, ?_⟩
  intro env err a ht hok
  obtain ⟨gk, yk, url, mu, tu, gu⟩ := env
  change tu = Except.error err at ht
  subst ht
  cases gk with
  | none => simp [analyze_video, analyze_video_inner] at hok
  | some k =>
    cases hext : extract_video_id url with
    | error e => simp [analyze_video, analyze_video_inner, hext] at hok
    | ok vid =>
      cases yk with
      | none => simp [analyze_video, analyze_video_inner, hext, get_video_details] at hok
      | some k2 =>
        cases mu with
        | error e =>
          simp [analyze_video, analyze_video_inner, hext, get_video_details] at hok
        | ok items =>
          cases items with
          | nil =>
            simp [analyze_video, analyze_video_inner, hext, get_video_details] at hok
          | cons item rest =>
            cases gu with
            | error e =>
              simp [analyze_video, analyze_video_inner, hext, get_video_details,
                analyze_video_with_gemini] at hok
            | ok gtext =>
              simp [analyze_video, analyze_video_inner, hext, get_video_details,
                analyze_video_with_gemini] at hok
              rw [← hok]
              rfl

/-- Witness for C5: a two-segment transcript joins with one space; a
failing transcript service yields the empty string, and the end-to-end
response for `envTranscriptErr` carries `has_transcript = false`. -/
theorem transcript_contract_witness :
    get_youtube_transcript (Except.ok [⟨"hello"⟩, ⟨"world"⟩]) = "hello world"
  ∧ get_youtube_transcript (Except.error "boom") = ""
  ∧ (analyze_video envTranscriptErr).1 = Except.ok resTranscriptErr
  ∧ resTranscriptErr.has_transcript = false := by
  refine ⟨?_, transcript_contract.2.1 "boom", by decide, ?_⟩
  · exact (transcript_contract.1 [⟨"hello"⟩, ⟨"world"⟩]).trans (by decide)
  · exact transcript_contract.2.2 envTranscriptErr "boom" resTranscriptErr rfl (by decide)

/-! ## Claims about the `/api/analyze` handler -/

/-- Claim C1 (code bug): with the Gemini credential absent, the handler
builds `HTTPException(500, "Gemini API key not configured")`, but the
blanket `except Exception` clause catches it and re-raises it as status
400 whose detail is `str(e)`; the delivered response therefore has status
400 — never 500 — although its detail still carries the
configuration-error text. -/
theorem analyze_missing_credential_status (env : Env) (h : env.gemini_api_key = none) :
    (analyze_video env).1
        = Except.error ⟨400, "500: Gemini API key not configured"⟩
      ∧ ∀ detail : String, (analyze_video env).1 ≠ Except.error ⟨500, detail⟩ := by
  obtain ⟨gk, yk, url, mu, tu, gu⟩ := env
  change gk = none at h
  subst h
  have heq : (analyze_video ⟨none, yk, url, mu, tu, gu⟩).1
      = Except.error ⟨400, "500: Gemini API key not configured"⟩ := rfl
  refine ⟨heq, ?_⟩
  intro d hd
  rw [heq] at hd
  simp at hd

/-- Witness for C1 at the concrete environment whose only defect is the
missing Gemini key. -/
theorem analyze_missing_credential_status_witness :
    (analyze_video envMissingKey).1
        = Except.error ⟨400, "500: Gemini API key not configured"⟩
      ∧ ∀ detail : String, (analyze_video envMissingKey).1 ≠ Except.error ⟨500, detail⟩ :=
  analyze_missing_credential_status envMissingKey rfl

/-- Counterexample to C7 as stated: on a request whose only defect is the
missing Gemini credential, the handler fails immediately and performs no
metadata fetch and no transcript fetch at all — it does not "perform the
metadata and transcript fetch work first". -/
theorem analyze_missing_credential_no_fetch_counterexample :
    (analyze_video envMissingKey).2 = []
  ∧ FetchEvent.metadataFetch ∉ (analyze_video envMissingKey).2
  ∧ FetchEvent.transcriptFetch ∉ (analyze_video envMissingKey).2
  ∧ (analyze_video envMissingKey).1
      = Except.error ⟨400, "500: Gemini API key not configured"⟩ := by decide

/-- Claim C7 as amended: with the credential missing, the credential check
short-circuits — the request fails before any metadata or transcript
fetch is attempted (the fetch trace is empty). -/
theorem analyze_missing_credential_short_circuits (env : Env)
    (h : env.gemini_api_key = none) :
    (analyze_video env).2 = [] ∧ ∃ e, (analyze_video env).1 = Except.error e := by
  obtain ⟨gk, yk, url, mu, tu, gu⟩ := env
  change gk = none at h
  subst h
  exact ⟨rfl, ⟨400, "500: Gemini API key not configured"⟩, rfl⟩

/-- Witness for the amended C7 at the concrete missing-key environment. -/
theorem analyze_missing_credential_short_circuits_witness :
    (analyze_video envMissingKey).2 = []
  ∧ ∃ e, (analyze_video envMissingKey).1 = Except.error e :=
  analyze_missing_credential_short_circuits envMissingKey rfl
